import Mathlib

/-!
Verification of the telecom data generator (generate_data.py).

The Python program draws from the global numpy random stream.  We embed that
stream as an oracle: a `Sampler` packages one deterministic response function
per primitive distribution, each taking the distribution parameters and the
current position in the stream.  The ambient numpy state is a pair
(seed, position); `np.random.seed 42` replaces it by (42, 0), and every draw
advances the position by one.  A family `ℕ → Sampler` assigns to every seed
the response functions of the stream obtained from that seed, so determinism
of the program in the seed is determinism in the chosen `Sampler`.

Machine floats are embedded as `ℚ`; the Python `int(...)` cast truncates
toward zero, and `round(x, 2)` rounds half to even at two decimals.
`datetime.now()` is an explicit integer-valued time parameter, and
`timedelta(days = d)` subtracts `d` from it.
-/

/-- Truncation toward zero, the behaviour of the Python `int(...)` cast on
a real number. -/
def pyInt (q : ℚ) : ℤ := if q < 0 then ⌈q⌉ else ⌊q⌋

/-- Rounding half to even to an integer, the behaviour of the Python builtin
`round` ignoring binary-float artefacts. -/
def roundHalfEven (q : ℚ) : ℤ :=
  let f := ⌊q⌋
  let r := q - f
  if r < 1 / 2 then f
  else if 1 / 2 < r then f + 1
  else if f % 2 = 0 then f else f + 1

/-- Python `round(q, 2)`: round half to even at two decimal places. -/
def round2 (q : ℚ) : ℚ := (roundHalfEven (q * 100) : ℚ) / 100

/-- Oracle for the numpy random stream obtained from one seed: one response
function per primitive distribution used by the program, taking the
distribution parameters and the position in the stream.  `unit` is the
uniform [0,1) variate that drives the Bernoulli draw of
`np.random.binomial(1, p)` and the cumulative inversion of
`np.random.choice`; `randint lo hi` models `np.random.randint(lo, hi)`. -/
structure Sampler where
  normal : ℚ → ℚ → ℕ → ℚ
  exponential : ℚ → ℕ → ℚ
  lognormal : ℚ → ℚ → ℕ → ℚ
  poisson : ℚ → ℕ → ℕ
  unit : ℕ → ℚ
  randint : ℕ → ℕ → ℕ → ℕ

/-- Result of `np.random.binomial(1, p)`: 1 when the uniform variate at the
given stream position falls below `p`, else 0. -/
def bernoulliDraw (d : Sampler) (p : ℚ) (pos : ℕ) : ℕ :=
  if d.unit pos < p then 1 else 0

/-- Cumulative-inversion selection of one item from a weighted list, the
semantics of `np.random.choice(items, p = ps)` driven by one uniform
variate. -/
def cdfPick : List String → List ℚ → ℚ → String
  | [], _, _ => ""
  | x :: _, [], _ => x
  | x :: xs, p :: ps, u => if u < p then x else cdfPick xs ps (u - p)

/-- One draw of `np.random.choice(items, p = ps)` at a stream position. -/
def randChoice (d : Sampler) (items : List String) (ps : List ℚ) (pos : ℕ) : String :=
  cdfPick items ps (d.unit pos)

/-- Left-pad the decimal digits of `n` with zeros to width `w`, the Python
format `f"{n:0wd}"` for a non-negative integer. -/
def padZeros (w n : ℕ) : String :=
  let s := toString n
  String.mk (List.replicate (w - s.length) '0') ++ s

/-- CustomerProfile record, one row of the customer table (generate_data.py
lines 92-108).  Fields that numpy delivers as non-negative machine integers
(the Poisson counts) are carried as `ℕ`; fields produced through the Python
`int(...)` cast are carried as `ℤ`; float-valued fields are `ℚ`. -/
structure CustomerProfile where
  customer_id : String
  age : ℤ
  city : String
  account_length_months : ℤ
  contract_type : String
  monthly_minutes : ℤ
  monthly_data_gb : ℚ
  monthly_sms : ℕ
  monthly_charge : ℚ
  late_payments : ℕ
  international_calls : ℤ
  customer_service_calls : ℕ
  device_age_months : ℤ
  churned : ℕ
  is_fraud : ℕ
deriving DecidableEq

/-- Transaction record, one row of the transaction table (generate_data.py
lines 147-154).  The timestamp is the integer day value
`now - days_ago`. -/
structure Transaction where
  customer_id : String
  transaction_id : String
  amount : ℚ
  transaction_type : String
  timestamp : ℤ
  is_fraud : ℕ
deriving DecidableEq

/-- Line 21: `max(18, min(80, int(np.random.normal(35, 12))))`. -/
def age_sample (d : Sampler) (pos : ℕ) : ℤ :=
  max 18 (min 80 (pyInt (d.normal 35 12 pos)))

/-- Line 25: `max(1, min(120, int(np.random.exponential(24))))`. -/
def account_length_sample (d : Sampler) (pos : ℕ) : ℤ :=
  max 1 (min 120 (pyInt (d.exponential 24 pos)))

/-- Line 29: `max(0, int(np.random.lognormal(6, 1)))`. -/
def monthly_minutes_sample (d : Sampler) (pos : ℕ) : ℤ :=
  max 0 (pyInt (d.lognormal 6 1 pos))

/-- Line 32: `round(max(0.1, np.random.exponential(5)), 2)`. -/
def monthly_data_gb_sample (d : Sampler) (pos : ℕ) : ℚ :=
  round2 (max 0.1 (d.exponential 5 pos))

/-- Lines 37-38: the deterministic bill
`round(20 + minutes*0.05 + data_gb*2 + sms*0.1, 2)`. -/
def monthly_charge_of (monthly_minutes : ℤ) (monthly_data_gb : ℚ) (monthly_sms : ℕ) : ℚ :=
  round2 (20 + ((monthly_minutes : ℚ) * 0.05) + (monthly_data_gb * 2) + ((monthly_sms : ℚ) * 0.1))

/-- Line 47: `max(0, int(np.random.exponential(2)))`. -/
def international_calls_sample (d : Sampler) (pos : ℕ) : ℤ :=
  max 0 (pyInt (d.exponential 2 pos))

/-- Line 56: `max(1, min(60, int(np.random.exponential(18))))`. -/
def device_age_sample (d : Sampler) (pos : ℕ) : ℤ :=
  max 1 (min 60 (pyInt (d.exponential 18 pos)))

/-- Lines 60-72: the additive churn risk accumulation on the already-sampled
values, translated statement by statement. -/
def churn_probability_calc (late_payments customer_service_calls : ℕ)
    (monthly_charge : ℚ) (account_length age : ℤ) : ℚ :=
  let cp : ℚ := 0.05
  let cp := if late_payments > 2 then cp + 0.3 else cp
  let cp := if customer_service_calls > 3 then cp + 0.2 else cp
  let cp := if monthly_charge > 80 then cp + 0.15 else cp
  let cp := if account_length < 3 then cp + 0.25 else cp
  let cp := if age < 25 ∨ age > 65 then cp + 0.1 else cp
  cp

/-- Lines 77-83: the additive fraud risk accumulation, translated statement
by statement. -/
def fraud_probability_calc (international_calls : ℤ) (monthly_charge : ℚ)
    (account_length : ℤ) : ℚ :=
  let fp : ℚ := 0.02
  let fp := if international_calls > 10 then fp + 0.1 else fp
  let fp := if monthly_charge > 200 then fp + 0.15 else fp
  let fp := if account_length < 1 then fp + 0.2 else fp
  fp

/-- Line 88-89: the fixed list of locations. -/
def ghana_cities : List String :=
  ["Accra", "Kumasi", "Tamale", "Sekondi-Takoradi", "Cape Coast",
   "Tema", "Obuasi", "Koforidua", "Sunyani", "Ho"]

/-- Line 90: the fixed location weight vector. -/
def ghana_city_weights : List ℚ :=
  [0.3, 0.2, 0.1, 0.08, 0.08, 0.07, 0.05, 0.04, 0.04, 0.04]

/-- Loop body of generate_telecom_customer_data (lines 17-110): the record of
customer `i` (zero-based) when the stream of sampler `d` stands at position
`pos`, paired with the stream position after the iteration.  Every numpy call
of the body advances the position; the conditional re-draw of
`late_payments` for short accounts (lines 42-43) makes the number of draws
per iteration 13 or 14. -/
def generate_one_customer (d : Sampler) (i : ℕ) (pos : ℕ) : CustomerProfile × ℕ :=
  let age := age_sample d pos
  let account_length := account_length_sample d (pos + 1)
  let monthly_minutes := monthly_minutes_sample d (pos + 2)
  let monthly_data_gb := monthly_data_gb_sample d (pos + 3)
  let monthly_sms := d.poisson 50 (pos + 4)
  let monthly_charge := monthly_charge_of monthly_minutes monthly_data_gb monthly_sms
  let late_payments0 := d.poisson 0.5 (pos + 5)
  let late_payments := if account_length < 6 then d.poisson 0.2 (pos + 6) else late_payments0
  let q0 := if account_length < 6 then pos + 7 else pos + 6
  let international_calls := international_calls_sample d q0
  let customer_service_calls := d.poisson 1 (q0 + 1)
  let contract_type := randChoice d ["Prepaid", "Postpaid"] [0.6, 0.4] (q0 + 2)
  let device_age_months := device_age_sample d (q0 + 3)
  let churned := bernoulliDraw d
    (min (churn_probability_calc late_payments customer_service_calls
      monthly_charge account_length age) 0.8) (q0 + 4)
  let is_fraud := bernoulliDraw d
    (min (fraud_probability_calc international_calls monthly_charge account_length) 0.3)
    (q0 + 5)
  let city := randChoice d ghana_cities ghana_city_weights (q0 + 6)
  ({ customer_id := "CUST_" ++ padZeros 6 (i + 1),
     age := age,
     city := city,
     account_length_months := account_length,
     contract_type := contract_type,
     monthly_minutes := monthly_minutes,
     monthly_data_gb := monthly_data_gb,
     monthly_sms := monthly_sms,
     monthly_charge := monthly_charge,
     late_payments := late_payments,
     international_calls := international_calls,
     customer_service_calls := customer_service_calls,
     device_age_months := device_age_months,
     churned := churned,
     is_fraud := is_fraud }, q0 + 7)

/-- The `for i in range(...)` loop of lines 17-110: `n` remaining iterations,
`i` the current index, threading the stream position. -/
def generate_customers_loop (d : Sampler) : ℕ → ℕ → ℕ → List CustomerProfile × ℕ
  | 0, _, pos => ([], pos)
  | n + 1, i, pos =>
      let r := generate_one_customer d i pos
      let rest := generate_customers_loop d n (i + 1) r.2
      (r.1 :: rest.1, rest.2)

/-- generate_telecom_customer_data (lines 9-112).  The function takes the
ambient numpy state `st`, immediately executes `np.random.seed(42)` (line
13), which replaces `st` by seed 42 at position 0, then runs the loop for
`num_customers.toNat` iterations (the Python `range` is empty for a zero or
negative argument).  It returns the customer table together with the numpy
state left behind.  The source contains no validation of `num_customers`
and no raise statement, so the embedding is a total function. -/
def generate_telecom_customer_data (D : ℕ → Sampler) (num_customers : ℤ)
    (st : ℕ × ℕ) : List CustomerProfile × (ℕ × ℕ) :=
  let r := generate_customers_loop (D 42) num_customers.toNat 0 0
  (r.1, (42, r.2))

/-- Transaction body of lines 123-156: one transaction of customer `c` when
`k` transactions have been generated so far in the whole run (so
`len(transactions) = k`), at time `now`, with the stream at `pos`.  It
consumes three draws: amount, day offset, type. -/
def generate_one_transaction (d : Sampler) (now : ℤ) (c : CustomerProfile)
    (k : ℕ) (pos : ℕ) : Transaction × ℕ :=
  let amount0 := if c.is_fraud ≠ 0 then d.lognormal 4 1.5 pos else d.lognormal 2 0.8 pos
  let amount := max 1 (round2 amount0)
  let days_ago := d.randint 0 90 (pos + 1)
  let transaction_types :=
    ["Voice_Call", "Data_Usage", "SMS", "International", "Premium_Service"]
  let ttype :=
    if c.is_fraud ≠ 0 then
      randChoice d transaction_types [0.2, 0.2, 0.1, 0.3, 0.2] (pos + 2)
    else
      randChoice d transaction_types [0.4, 0.3, 0.2, 0.05, 0.05] (pos + 2)
  ({ customer_id := c.customer_id,
     transaction_id := "TXN_" ++ padZeros 8 (k + 1),
     amount := amount,
     transaction_type := ttype,
     timestamp := now - (days_ago : ℤ),
     is_fraud := c.is_fraud }, pos + 3)

/-- Inner `for _ in range(num_transactions)` loop of lines 123-156, threading
the global transaction count `k` and the stream position. -/
def generate_txns_for_customer (d : Sampler) (now : ℤ) (c : CustomerProfile) :
    ℕ → ℕ → ℕ → List Transaction × ℕ × ℕ
  | 0, k, pos => ([], k, pos)
  | n + 1, k, pos =>
      let r := generate_one_transaction d now c k pos
      let rest := generate_txns_for_customer d now c n (k + 1) r.2
      (r.1 :: rest.1, rest.2)

/-- Outer `for _, customer in customer_df.iterrows()` loop of lines 120-156:
per customer one Poisson draw for the transaction count, then that many
transactions. -/
def generate_transaction_data_loop (d : Sampler) (now : ℤ) (lam : ℚ) :
    List CustomerProfile → ℕ → ℕ → List Transaction × ℕ × ℕ
  | [], k, pos => ([], k, pos)
  | c :: cs, k, pos =>
      let n := d.poisson lam pos
      let r := generate_txns_for_customer d now c n k (pos + 1)
      let rest := generate_transaction_data_loop d now lam cs r.2.1 r.2.2
      (r.1 ++ rest.1, rest.2)

/-- generate_transaction_data (lines 114-158): consumes the customer table
and the ambient numpy state (it performs no reseed), producing the
transaction table and the state left behind.  `now` is the value of
`datetime.now()` during the run. -/
def generate_transaction_data (D : ℕ → Sampler) (now : ℤ)
    (customers : List CustomerProfile) (transactions_per_customer : ℚ)
    (st : ℕ × ℕ) : List Transaction × (ℕ × ℕ) :=
  let r := generate_transaction_data_loop (D st.1) now transactions_per_customer customers 0 st.2
  (r.1, (st.1, r.2.2))

/-- Line 114: the declared default of the `transactions_per_customer`
parameter. -/
def transactions_per_customer_default : ℚ := 50

/-- Call of generate_transaction_data with the `transactions_per_customer`
argument omitted, so that the declared default of line 114 applies. -/
def generate_transaction_data_with_default (D : ℕ → Sampler) (now : ℤ)
    (customers : List CustomerProfile) (st : ℕ × ℕ) : List Transaction × (ℕ × ℕ) :=
  generate_transaction_data D now customers transactions_per_customer_default st

/-- Whole generation pipeline of lines 160-165: the customer stage followed
by the transaction stage on the stream state the customer stage left behind,
at time `now` and ambient numpy state `st`. -/
def run_pipeline (D : ℕ → Sampler) (now : ℤ) (num_customers : ℤ) (lam : ℚ)
    (st : ℕ × ℕ) : List CustomerProfile × List Transaction :=
  let cr := generate_telecom_customer_data D num_customers st
  let tr := generate_transaction_data D now cr.1 lam cr.2
  (cr.1, tr.1)

/-- Churn probability as the specification words it: the base rate 0.05 plus
each increment when its risk condition holds on the fields of the finished
record.  This is the spec-side counterpart of `churn_probability_calc`. -/
def churn_probability_spec (c : CustomerProfile) : ℚ :=
  0.05 + (if c.late_payments > 2 then 0.3 else 0)
       + (if c.customer_service_calls > 3 then 0.2 else 0)
       + (if c.monthly_charge > 80 then 0.15 else 0)
       + (if c.account_length_months < 3 then 0.25 else 0)
       + (if c.age < 25 ∨ c.age > 65 then 0.1 else 0)

/-- Fraud probability as the specification words it: the base rate 0.02 plus
each increment when its risk condition holds on the fields of the finished
record.  This is the spec-side counterpart of `fraud_probability_calc`. -/
def fraud_probability_spec (c : CustomerProfile) : ℚ :=
  0.02 + (if c.international_calls > 10 then 0.1 else 0)
       + (if c.monthly_charge > 200 then 0.15 else 0)
       + (if c.account_length_months < 1 then 0.2 else 0)

/-- Range and sign invariant of section 8 of the specification, for one
customer record. -/
def profile_inv (c : CustomerProfile) : Prop :=
  18 ≤ c.age ∧ c.age ≤ 80 ∧
  1 ≤ c.account_length_months ∧ c.account_length_months ≤ 120 ∧
  1 ≤ c.device_age_months ∧ c.device_age_months ≤ 60 ∧
  (0.1 : ℚ) ≤ c.monthly_data_gb ∧
  0 ≤ c.monthly_minutes ∧
  0 ≤ (c.monthly_sms : ℤ) ∧
  0 ≤ c.international_calls ∧
  0 ≤ (c.customer_service_calls : ℤ) ∧
  0 ≤ (c.late_payments : ℤ) ∧
  (c.churned = 0 ∨ c.churned = 1) ∧
  (c.is_fraud = 0 ∨ c.is_fraud = 1)

/-- Concrete sampler whose every response is zero, used to instantiate the
universally quantified theorems on explicit inputs. -/
def zeroSampler : Sampler :=
  { normal := fun _ _ _ => 0
    exponential := fun _ _ => 0
    lognormal := fun _ _ _ => 0
    poisson := fun _ _ => 0
    unit := fun _ => 0
    randint := fun _ _ _ => 0 }

/-- Concrete sampler whose Poisson responses are all 1, so every customer
gets exactly one transaction. -/
def onePoissonSampler : Sampler :=
  { zeroSampler with poisson := fun _ _ => 1 }

/-- Concrete sampler whose Poisson response is 1 for means above 40 and 0
otherwise, separating a transaction stage run at mean 50 from one run at
mean 30. -/
def meanPoissonSampler : Sampler :=
  { zeroSampler with poisson := fun m _ => if 40 < m then 1 else 0 }

/-- Seed family that answers every seed with `zeroSampler`. -/
def zeroStream : ℕ → Sampler := fun _ => zeroSampler

/-- Seed family that answers every seed with `onePoissonSampler`. -/
def onePoissonStream : ℕ → Sampler := fun _ => onePoissonSampler

/-- Seed family that answers every seed with `meanPoissonSampler`. -/
def meanPoissonStream : ℕ → Sampler := fun _ => meanPoissonSampler

/-- Explicit customer record used as an input of the transaction-stage
witnesses. -/
def demoCustomer : CustomerProfile :=
  { customer_id := "CUST_000001",
    age := 30,
    city := "Accra",
    account_length_months := 12,
    contract_type := "Prepaid",
    monthly_minutes := 100,
    monthly_data_gb := 5,
    monthly_sms := 10,
    monthly_charge := 36,
    late_payments := 0,
    international_calls := 0,
    customer_service_calls := 0,
    device_age_months := 12,
    churned := 0,
    is_fraud := 1 }

/-- Fallback transaction record for head extraction. -/
def demoTransaction : Transaction :=
  { customer_id := "",
    transaction_id := "",
    amount := 0,
    transaction_type := "",
    timestamp := 0,
    is_fraud := 0 }

/-- First row of the customer table generated from `zeroStream` with
population 1, the concrete record on which the per-record witnesses
instantiate the table-level theorems. -/
def witnessCustomer : CustomerProfile :=
  (generate_telecom_customer_data zeroStream 1 (0, 0)).1.head (by decide)

/-- First row of the transaction table generated from `onePoissonStream`
over the single-customer table `[demoCustomer]`. -/
def witnessTransaction : Transaction :=
  (generate_transaction_data onePoissonStream 0 [demoCustomer] 30 (42, 0)).1.head (by decide)

theorem churn_calc_eq_spec (c : CustomerProfile) :
    churn_probability_calc c.late_payments c.customer_service_calls c.monthly_charge
      c.account_length_months c.age = churn_probability_spec c := by
  simp only [churn_probability_calc, churn_probability_spec]
  split_ifs <;> norm_num

theorem fraud_calc_eq_spec (c : CustomerProfile) :
    fraud_probability_calc c.international_calls c.monthly_charge
      c.account_length_months = fraud_probability_spec c := by
  simp only [fraud_probability_calc, fraud_probability_spec]
  split_ifs <;> norm_num

theorem floor_le_roundHalfEven (q : ℚ) : ⌊q⌋ ≤ roundHalfEven q := by
  simp only [roundHalfEven]
  split_ifs <;> omega

theorem round2_ge_tenth (x : ℚ) (h : (0.1 : ℚ) ≤ x) : (0.1 : ℚ) ≤ round2 x := by
  have h10 : (10 : ℤ) ≤ ⌊x * 100⌋ := by
    rw [Int.le_floor]
    push_cast
    nlinarith
  have h2 : (10 : ℤ) ≤ roundHalfEven (x * 100) := le_trans h10 (floor_le_roundHalfEven _)
  have h3 : ((10 : ℤ) : ℚ) ≤ (roundHalfEven (x * 100) : ℚ) := by exact_mod_cast h2
  simp only [round2]
  rw [show (0.1 : ℚ) = 10 / 100 by norm_num]
  push_cast at h3
  linarith

theorem bernoulliDraw_cases (d : Sampler) (p : ℚ) (pos : ℕ) :
    bernoulliDraw d p pos = 0 ∨ bernoulliDraw d p pos = 1 := by
  simp only [bernoulliDraw]
  split_ifs <;> simp

theorem monthly_data_gb_sample_ge (d : Sampler) (pos : ℕ) :
    (0.1 : ℚ) ≤ monthly_data_gb_sample d pos :=
  round2_ge_tenth _ (le_max_left _ _)

theorem gen1_churned (d : Sampler) (i pos : ℕ) :
    ∃ q, ((generate_one_customer d i pos).1).churned
      = bernoulliDraw d (min (churn_probability_spec ((generate_one_customer d i pos).1)) 0.8) q := by
  refine ⟨(if account_length_sample d (pos + 1) < 6 then pos + 7 else pos + 6) + 4, ?_⟩
  rw [← churn_calc_eq_spec]
  simp only [generate_one_customer]

theorem gen1_is_fraud (d : Sampler) (i pos : ℕ) :
    ∃ q, ((generate_one_customer d i pos).1).is_fraud
      = bernoulliDraw d (min (fraud_probability_spec ((generate_one_customer d i pos).1)) 0.3) q := by
  refine ⟨(if account_length_sample d (pos + 1) < 6 then pos + 7 else pos + 6) + 5, ?_⟩
  rw [← fraud_calc_eq_spec]
  simp only [generate_one_customer]

theorem gen1_monthly_charge (d : Sampler) (i pos : ℕ) :
    ((generate_one_customer d i pos).1).monthly_charge
      = round2 (20 + 0.05 * (((generate_one_customer d i pos).1).monthly_minutes : ℚ)
          + 2 * ((generate_one_customer d i pos).1).monthly_data_gb
          + 0.1 * (((generate_one_customer d i pos).1).monthly_sms : ℚ)) := by
  simp only [generate_one_customer, monthly_charge_of]
  congr 1
  ring

theorem gen1_account_ge_one (d : Sampler) (i pos : ℕ) :
    1 ≤ ((generate_one_customer d i pos).1).account_length_months := by
  simp only [generate_one_customer, account_length_sample]
  omega

theorem gen1_profile_inv (d : Sampler) (i pos : ℕ) :
    profile_inv ((generate_one_customer d i pos).1) := by
  simp only [generate_one_customer, profile_inv, age_sample, account_length_sample,
    monthly_minutes_sample, international_calls_sample, device_age_sample]
  refine ⟨?_, ?_, ?_, ?_, ?_, ?_, ?_, ?_, ?_, ?_, ?_, ?_, ?_, ?_⟩
  · omega
  · omega
  · omega
  · omega
  · omega
  · omega
  · exact monthly_data_gb_sample_ge _ _
  · omega
  · exact Int.natCast_nonneg _
  · omega
  · exact Int.natCast_nonneg _
  · exact Int.natCast_nonneg _
  · exact bernoulliDraw_cases _ _ _
  · exact bernoulliDraw_cases _ _ _

theorem mem_customers_loop (d : Sampler) :
    ∀ (n i pos : ℕ) (c : CustomerProfile),
      c ∈ (generate_customers_loop d n i pos).1 →
      ∃ j q, c = (generate_one_customer d j q).1 := by
  intro n
  induction n with
  | zero => intro i pos c h; simp [generate_customers_loop] at h
  | succ n ih =>
      intro i pos c h
      simp only [generate_customers_loop] at h
      rcases List.mem_cons.mp h with h1 | h2
      · exact ⟨i, pos, h1⟩
      · exact ih (i + 1) _ c h2

theorem mem_customer_table {D : ℕ → Sampler} {n : ℤ} {st : ℕ × ℕ} {c : CustomerProfile}
    (h : c ∈ (generate_telecom_customer_data D n st).1) :
    ∃ j q, c = (generate_one_customer (D 42) j q).1 :=
  mem_customers_loop (D 42) n.toNat 0 0 c h

theorem mem_txns_for_customer (d : Sampler) (now : ℤ) (c : CustomerProfile) :
    ∀ (n k pos : ℕ) (t : Transaction),
      t ∈ (generate_txns_for_customer d now c n k pos).1 →
      t.customer_id = c.customer_id ∧ t.is_fraud = c.is_fraud := by
  intro n
  induction n with
  | zero => intro k pos t h; simp [generate_txns_for_customer] at h
  | succ n ih =>
      intro k pos t h
      simp only [generate_txns_for_customer] at h
      rcases List.mem_cons.mp h with h1 | h2
      · subst h1; exact ⟨rfl, rfl⟩
      · exact ih (k + 1) _ t h2

theorem mem_txn_loop (d : Sampler) (now : ℤ) (lam : ℚ) :
    ∀ (cs : List CustomerProfile) (k pos : ℕ) (t : Transaction),
      t ∈ (generate_transaction_data_loop d now lam cs k pos).1 →
      ∃ c ∈ cs, t.customer_id = c.customer_id ∧ t.is_fraud = c.is_fraud := by
  intro cs
  induction cs with
  | nil => intro k pos t h; simp [generate_transaction_data_loop] at h
  | cons c cs ih =>
      intro k pos t h
      simp only [generate_transaction_data_loop] at h
      rcases List.mem_append.mp h with h1 | h2
      · exact ⟨c, List.mem_cons_self c cs, mem_txns_for_customer d now c _ _ _ t h1⟩
      · obtain ⟨c', hc', ht⟩ := ih _ _ t h2
        exact ⟨c', List.mem_cons_of_mem c hc', ht⟩

theorem fraud_spec_drop_acct (c : CustomerProfile) (h : 1 ≤ c.account_length_months) :
    fraud_probability_spec c
      = 0.02 + (if c.international_calls > 10 then 0.1 else 0)
             + (if c.monthly_charge > 200 then 0.15 else 0) := by
  simp only [fraud_probability_spec]
  have hne : ¬ (c.account_length_months < 1) := by omega
  rw [if_neg hne, add_zero]

theorem fraud_spec_le_027 (c : CustomerProfile) (h : 1 ≤ c.account_length_months) :
    fraud_probability_spec c ≤ 0.27 := by
  rw [fraud_spec_drop_acct c h]
  split_ifs <;> norm_num

/-- C1: for every customer of the generated table, the churned label is one
Bernoulli draw whose parameter is the accumulated churn probability of the
already-sampled fields of that customer, capped at 0.8. -/
theorem churn_label_is_capped_bernoulli (D : ℕ → Sampler) (num_customers : ℤ)
    (st : ℕ × ℕ) :
    ∀ c ∈ (generate_telecom_customer_data D num_customers st).1,
      ∃ q, c.churned = bernoulliDraw (D 42) (min (churn_probability_spec c) 0.8) q := by
  intro c hc
  obtain ⟨j, q, rfl⟩ := mem_customer_table hc
  exact gen1_churned (D 42) j q

/-- C1 witness: the theorem instantiated on the first row generated from
the all-zero sampler with population 1. -/
theorem churn_label_is_capped_bernoulli_witness :
    ∃ q, witnessCustomer.churned
      = bernoulliDraw (zeroStream 42) (min (churn_probability_spec witnessCustomer) 0.8) q :=
  churn_label_is_capped_bernoulli zeroStream 1 (0, 0) witnessCustomer
    (List.head_mem (by decide))

/-- C2: for every customer of the generated table, the is_fraud label is one
Bernoulli draw whose parameter is the accumulated fraud probability of the
already-sampled fields of that customer, capped at 0.3. -/
theorem fraud_label_is_capped_bernoulli (D : ℕ → Sampler) (num_customers : ℤ)
    (st : ℕ × ℕ) :
    ∀ c ∈ (generate_telecom_customer_data D num_customers st).1,
      ∃ q, c.is_fraud = bernoulliDraw (D 42) (min (fraud_probability_spec c) 0.3) q := by
  intro c hc
  obtain ⟨j, q, rfl⟩ := mem_customer_table hc
  exact gen1_is_fraud (D 42) j q

/-- C2 witness: the theorem instantiated on the first row generated from
the all-zero sampler with population 1. -/
theorem fraud_label_is_capped_bernoulli_witness :
    ∃ q, witnessCustomer.is_fraud
      = bernoulliDraw (zeroStream 42) (min (fraud_probability_spec witnessCustomer) 0.3) q :=
  fraud_label_is_capped_bernoulli zeroStream 1 (0, 0) witnessCustomer
    (List.head_mem (by decide))

/-- C3: for every record of the generated table, monthly_charge equals
`20 + 0.05*monthly_minutes + 2*monthly_data_gb + 0.1*monthly_sms` rounded to
2 decimals, computed from the usage fields of the record itself. -/
theorem monthly_charge_billing_invariant (D : ℕ → Sampler) (num_customers : ℤ)
    (st : ℕ × ℕ) :
    ∀ c ∈ (generate_telecom_customer_data D num_customers st).1,
      c.monthly_charge
        = round2 (20 + 0.05 * (c.monthly_minutes : ℚ) + 2 * c.monthly_data_gb
            + 0.1 * (c.monthly_sms : ℚ)) := by
  intro c hc
  obtain ⟨j, q, rfl⟩ := mem_customer_table hc
  exact gen1_monthly_charge (D 42) j q

/-- C3 witness: the theorem instantiated on the first row generated from
the all-zero sampler with population 1. -/
theorem monthly_charge_billing_invariant_witness :
    witnessCustomer.monthly_charge
      = round2 (20 + 0.05 * (witnessCustomer.monthly_minutes : ℚ)
          + 2 * witnessCustomer.monthly_data_gb
          + 0.1 * (witnessCustomer.monthly_sms : ℚ)) :=
  monthly_charge_billing_invariant zeroStream 1 (0, 0) witnessCustomer
    (List.head_mem (by decide))

/-- C4: every record of the generated table satisfies the range and sign
invariant: age in [18,80], account length in [1,120], device age in [1,60],
data volume at least 0.1, every count non-negative, both labels in
\x7b0,1\x7d. -/
theorem profile_fields_within_ranges (D : ℕ → Sampler) (num_customers : ℤ)
    (st : ℕ × ℕ) :
    ∀ c ∈ (generate_telecom_customer_data D num_customers st).1, profile_inv c := by
  intro c hc
  obtain ⟨j, q, rfl⟩ := mem_customer_table hc
  exact gen1_profile_inv (D 42) j q

/-- C4 witness: the theorem instantiated on the first row generated from
the all-zero sampler with population 1. -/
theorem profile_fields_within_ranges_witness : profile_inv witnessCustomer :=
  profile_fields_within_ranges zeroStream 1 (0, 0) witnessCustomer
    (List.head_mem (by decide))

/-- C9: every generated customer has account_length_months at least 1, so
the fraud increment guarded by account_length_months < 1 never applies: the
accumulated fraud probability reduces to the two remaining increments, never
exceeds 0.27, and the actual fraud Bernoulli parameter equals it with the
0.3 cap never binding. -/
theorem fraud_cap_never_binding (D : ℕ → Sampler) (num_customers : ℤ) (st : ℕ × ℕ) :
    ∀ c ∈ (generate_telecom_customer_data D num_customers st).1,
      1 ≤ c.account_length_months ∧
      fraud_probability_spec c
        = 0.02 + (if c.international_calls > 10 then 0.1 else 0)
               + (if c.monthly_charge > 200 then 0.15 else 0) ∧
      fraud_probability_spec c ≤ 0.27 ∧
      min (fraud_probability_spec c) 0.3 = fraud_probability_spec c ∧
      ∃ q, c.is_fraud = bernoulliDraw (D 42) (fraud_probability_spec c) q := by
  intro c hc
  obtain ⟨j, q, rfl⟩ := mem_customer_table hc
  have hacct := gen1_account_ge_one (D 42) j q
  have hle := fraud_spec_le_027 _ hacct
  have hmin : min (fraud_probability_spec ((generate_one_customer (D 42) j q).1)) 0.3
      = fraud_probability_spec ((generate_one_customer (D 42) j q).1) :=
    min_eq_left (le_trans hle (by norm_num))
  refine ⟨hacct, fraud_spec_drop_acct _ hacct, hle, hmin, ?_⟩
  obtain ⟨r, hr⟩ := gen1_is_fraud (D 42) j q
  exact ⟨r, by rw [hr, hmin]⟩

/-- C9 witness: the theorem instantiated on the first row generated from
the all-zero sampler with population 1. -/
theorem fraud_cap_never_binding_witness :
    1 ≤ witnessCustomer.account_length_months ∧
    fraud_probability_spec witnessCustomer
      = 0.02 + (if witnessCustomer.international_calls > 10 then 0.1 else 0)
             + (if witnessCustomer.monthly_charge > 200 then 0.15 else 0) ∧
    fraud_probability_spec witnessCustomer ≤ 0.27 ∧
    min (fraud_probability_spec witnessCustomer) 0.3 = fraud_probability_spec witnessCustomer ∧
    ∃ q, witnessCustomer.is_fraud
      = bernoulliDraw (zeroStream 42) (fraud_probability_spec witnessCustomer) q :=
  fraud_cap_never_binding zeroStream 1 (0, 0) witnessCustomer (List.head_mem (by decide))

/-- C7: every transaction produced from a customer table references the
customer_id of a row of that table and carries the is_fraud value of that
row. -/
theorem transactions_reference_existing_customer (D : ℕ → Sampler) (now : ℤ)
    (customers : List CustomerProfile) (lam : ℚ) (st : ℕ × ℕ) :
    ∀ t ∈ (generate_transaction_data D now customers lam st).1,
      ∃ c ∈ customers, t.customer_id = c.customer_id ∧ t.is_fraud = c.is_fraud := by
  intro t ht
  exact mem_txn_loop (D st.1) now lam customers 0 st.2 t ht

/-- C7 witness: the theorem instantiated on the first transaction generated
for the single-customer table containing demoCustomer. -/
theorem transactions_reference_existing_customer_witness :
    ∃ c ∈ [demoCustomer], witnessTransaction.customer_id = c.customer_id ∧
      witnessTransaction.is_fraud = c.is_fraud :=
  transactions_reference_existing_customer onePoissonStream 0 [demoCustomer] 30 (42, 0)
    witnessTransaction (List.head_mem (by decide))

/-- C10: generate_telecom_customer_data reseeds the stream to the constant
42 at entry, so its whole result is independent of the ambient random-stream
state before the call, and the seed component of the state it leaves behind
is 42. -/
theorem customer_stage_ignores_prior_stream_state (D : ℕ → Sampler)
    (num_customers : ℤ) (st₁ st₂ : ℕ × ℕ) :
    generate_telecom_customer_data D num_customers st₁
      = generate_telecom_customer_data D num_customers st₂ ∧
    (generate_telecom_customer_data D num_customers st₁).2.1 = 42 :=
  ⟨rfl, rfl⟩

/-- C5 counterexample: two pipeline runs with identical population size,
identical transactions-per-customer mean, identical seed family and
identical ambient state, executed at generation times 0 and 1, produce
transaction tables that differ (in the timestamp field), so the output
tables are not byte-identical as the claim states. -/
theorem pipeline_not_time_invariant :
    (run_pipeline onePoissonStream 0 1 30 (0, 0)).2
      ≠ (run_pipeline onePoissonStream 1 1 30 (0, 0)).2 :=
  fun h => absurd (congrArg (fun l => (l.headD demoTransaction).timestamp) h) (by decide)

/-- C5 amended: two pipeline runs with identical population size,
transactions-per-customer mean, seed family and generation time produce
identical customer and transaction tables, whatever the ambient stream
states; the customer table is identical even across different generation
times. -/
theorem pipeline_deterministic_given_time (D : ℕ → Sampler) (now₁ now₂ : ℤ)
    (num_customers : ℤ) (lam : ℚ) (st₁ st₂ : ℕ × ℕ) :
    run_pipeline D now₁ num_customers lam st₁ = run_pipeline D now₁ num_customers lam st₂ ∧
    (run_pipeline D now₁ num_customers lam st₁).1
      = (run_pipeline D now₂ num_customers lam st₂).1 :=
  ⟨rfl, rfl⟩

/-- C6 counterexample: at population size 0 the generator neither raises a
configuration error nor stops before running: it returns normally with the
empty table and the reseeded stream state.  The embedding is a total
function because the source contains no validation of the population size
and no raise statement. -/
theorem zero_population_returns_normally :
    generate_telecom_customer_data zeroStream 0 (7, 7) = ([], (42, 0)) := rfl

/-- C6 amended: for a zero or negative population size the generator raises
no error; it reseeds the stream, performs no per-customer sampling, and
returns the empty customer table. -/
theorem nonpositive_population_yields_empty_table_no_error (D : ℕ → Sampler)
    (st : ℕ × ℕ) (n : ℤ) (h : n ≤ 0) :
    generate_telecom_customer_data D n st = ([], (42, 0)) := by
  simp [generate_telecom_customer_data, Int.toNat_of_nonpos h, generate_customers_loop]

/-- C6 amended witness: the amended theorem instantiated at population
size -3. -/
theorem nonpositive_population_yields_empty_table_no_error_witness :
    generate_telecom_customer_data zeroStream (-3) (0, 0) = ([], (42, 0)) :=
  nonpositive_population_yields_empty_table_no_error zeroStream (0, 0) (-3) (by decide)

/-- C8 counterexample: calling the transaction generator with the
transactions-per-customer argument omitted behaves differently from calling
it with 30, on a sampler whose Poisson response distinguishes means above
40: the default call produces one transaction, the explicit-30 call none.
So the declared default is not 30. -/
theorem default_transactions_per_customer_not_30 :
    (generate_transaction_data_with_default meanPoissonStream 0 [demoCustomer] (42, 0)).1.length
      ≠ (generate_transaction_data meanPoissonStream 0 [demoCustomer] 30 (42, 0)).1.length := by
  decide

/-- C8 amended: when the transactions-per-customer mean is not supplied, the
transaction generator uses the declared default value 50. -/
theorem default_transactions_per_customer_is_50 (D : ℕ → Sampler) (now : ℤ)
    (customers : List CustomerProfile) (st : ℕ × ℕ) :
    generate_transaction_data_with_default D now customers st
      = generate_transaction_data D now customers 50 st ∧
    transactions_per_customer_default = 50 :=
  ⟨rfl, rfl⟩
